import Mathlib

/-!
Verification of the dependency caching proxy server
(`src/application/handle_cache_request.py`, `src/interfaces/api.py`).

Python byte strings are modelled as `List Nat`, Python dicts used as
role→version maps as association lists with first-match lookup, and the
orchestrator's side effects (installer invocations, blob/index/archive
writes) as an explicit event trace.  Components of the repository whose
source files are not in the snapshot (the domain and infrastructure
modules) are modelled from the specification; each such definition is
marked `Modelled from the spec:` in its doc comment.
-/

namespace DepCacheProxy

/-- A dependency file: (logical relative path, byte content), mirroring
`domain.dependency_set.DependencyFile` as used by the orchestrator. -/
structure DependencyFile where
  relative_path : String
  content : List Nat
deriving DecidableEq, Repr

/-- The dependency set handed to fingerprinting and storage, mirroring
`domain.dependency_set.DependencySet(manager, files, **kwargs)` with the
optional version fields `node_version`, `npm_version`, `php_version`
defaulting to `None`. -/
structure DependencySet where
  manager : String
  files : List DependencyFile
  node_version : Option String := none
  npm_version : Option String := none
  php_version : Option String := none
deriving DecidableEq, Repr

/-- Mirrors `application.dtos.CacheRequest`: the request DTO the orchestrator
consumes.  `versions` is the role→version mapping. -/
structure CacheRequest where
  manager : String
  versions : List (String × String)
  lockfile_content : List Nat
  manifest_content : List Nat
  custom_args : Option (List String) := none
deriving DecidableEq, Repr

/-- Mirrors `application.dtos.CacheResponse`: the orchestrator's response DTO. -/
structure CacheResponse where
  bundle_hash : String
  download_url : String
  is_cache_hit : Bool
deriving DecidableEq, Repr

/-- Mirrors `application.dtos.FileData`: one output file collected by an installer. -/
structure FileData where
  relative_path : String
  content : List Nat
deriving DecidableEq, Repr

/-- Mirrors `application.dtos.InstallationResult`. -/
structure InstallationResult where
  success : Bool
  files : List FileData
  error_message : Option String := none
deriving DecidableEq, Repr

/-- Python truthiness of an `Optional[str]`: `None` and `""` are falsy. -/
def pyTruthy : Option String → Bool
  | none => false
  | some s => !s.isEmpty

/-- Modelled from the spec: the Installer Registry (§4.5; the repository
file `domain/installer.py` is not in the snapshot) supplies the
conventional manifest filename per manager.  The names agree with the
tables in `src/interfaces/api.py` (lines 141-145). -/
def manifest_name (manager : String) : String :=
  if manager = "npm" ∨ manager = "yarn" then "package.json"
  else if manager = "composer" then "composer.json"
  else "manifest"

/-- Modelled from the spec: the Installer Registry (§4.5; the repository
file `domain/installer.py` is not in the snapshot) supplies the
conventional lockfile filename per manager.  The names agree with the
tables in `src/interfaces/api.py` (lines 146-150). -/
def lockfile_name (manager : String) : String :=
  if manager = "npm" then "package-lock.json"
  else if manager = "yarn" then "yarn.lock"
  else if manager = "composer" then "composer.lock"
  else "lockfile"

/-- The version kwargs `HandleCacheRequest._get_version_kwargs` produces
for the `DependencySet` constructor (handle_cache_request.py lines
113-136), before being splatted into `DependencySet(...)`. -/
structure VersionKwargs where
  node_version : Option String := none
  npm_version : Option String := none
  php_version : Option String := none
deriving DecidableEq, Repr

/-- Embeds `HandleCacheRequest._get_version_kwargs` (handle_cache_request.py
lines 113-136): converts the request's role→version mapping to the
`DependencySet` keyword arguments, accepting both the API role names
(`node`/`npm`/`yarn`/`php`) and the internal ones
(`runtime`/`package_manager`). -/
def _get_version_kwargs (manager : String) (versions : List (String × String)) :
    VersionKwargs :=
  if manager = "npm" ∨ manager = "yarn" then
    { node_version :=
        match versions.lookup "node" with
        | some v => some v
        | none => versions.lookup "runtime"
      npm_version :=
        match versions.lookup "npm" with
        | some v => some v
        | none =>
          match versions.lookup "yarn" with
          | some v => some v
          | none => versions.lookup "package_manager" }
  else if manager = "composer" then
    { php_version :=
        match versions.lookup "php" with
        | some v => some v
        | none => versions.lookup "runtime" }
  else {}

/-- Insert a dependency file into a path-sorted list (helper for the
canonical path sort of §4.1). -/
def insertByPath (f : DependencyFile) : List DependencyFile → List DependencyFile
  | [] => [f]
  | g :: gs =>
    if f.relative_path ≤ g.relative_path then f :: g :: gs
    else g :: insertByPath f gs

/-- Sort dependency files lexicographically by logical path (§4.1 step 3). -/
def sortByPath : List DependencyFile → List DependencyFile
  | [] => []
  | f :: fs => insertByPath f (sortByPath fs)

/-- Length-prefixed serialization of a string (model of the spec's
length-prefixed UTF-8 byte string of §4.1). -/
def encodeStr (s : String) : String :=
  toString s.length ++ ":" ++ s

/-- Length-prefixed serialization of a byte string (§4.1). -/
def encodeBytes (b : List Nat) : String :=
  toString b.length ++ ":" ++ String.intercalate "," (b.map toString)

/-- The version tuple a `DependencySet` carries, as role/value pairs in
lexicographic role order (`node_version` < `npm_version` < `php_version`);
absent roles are omitted, not emitted as empty (§4.1 step 2). -/
def DependencySet.versionPairs (s : DependencySet) : List (String × String) :=
  (match s.node_version with | some v => [("node_version", v)] | none => []) ++
  (match s.npm_version with | some v => [("npm_version", v)] | none => []) ++
  (match s.php_version with | some v => [("php_version", v)] | none => [])

/-- Modelled from the spec: `DependencySet.calculate_bundle_hash`
(§4.1 Hasher; the repository file `domain/dependency_set.py` is not in
the snapshot).  The canonical serialization feeds, in fixed order, the
manager tag, the version tuple sorted by role, and the files sorted by
logical path, each length-prefixed.  The collision-resistant hash on top
of the serialization is modelled as the canonical serialization itself,
so equality of bundle ids is exactly equality of canonical forms. -/
def DependencySet.calculate_bundle_hash (s : DependencySet) : String :=
  encodeStr s.manager ++ "|" ++
  String.intercalate "|"
    (s.versionPairs.map (fun p => encodeStr p.1 ++ encodeStr p.2)) ++ "|" ++
  String.intercalate "|"
    ((sortByPath s.files).map (fun f => encodeStr f.relative_path ++ encodeBytes f.content))

/-- The canonical file list `HandleCacheRequest._calculate_bundle_hash`
builds from the request (handle_cache_request.py lines 91-102): the
lockfile is appended only when its content is non-empty (Python
truthiness of bytes), then the manifest is appended. -/
def bundle_hash_files (request : CacheRequest) : List DependencyFile :=
  (if request.lockfile_content.isEmpty then []
   else [{ relative_path := lockfile_name request.manager,
           content := request.lockfile_content }]) ++
  [{ relative_path := manifest_name request.manager,
     content := request.manifest_content }]

/-- The `DependencySet` that `HandleCacheRequest._calculate_bundle_hash`
constructs from the request (handle_cache_request.py lines 104-109). -/
def request_dep_set (request : CacheRequest) : DependencySet :=
  let kw := _get_version_kwargs request.manager request.versions
  { manager := request.manager
    files := bundle_hash_files request
    node_version := kw.node_version
    npm_version := kw.npm_version
    php_version := kw.php_version }

/-- Embeds `HandleCacheRequest._calculate_bundle_hash` (handle_cache_request.py
lines 81-111). -/
def _calculate_bundle_hash (request : CacheRequest) : String :=
  (request_dep_set request).calculate_bundle_hash

/-- The normalized role→version tuple `HandleCacheRequest._is_version_supported`
builds before the support lookup (handle_cache_request.py lines 148-175):
for `npm`/`yarn`, `node`/`runtime` map to `runtime` and
`npm`/`yarn`/`package_manager` map to `package_manager`; for `composer`,
`php`/`runtime` map to `runtime`; any other manager keeps the tuple
as-is. -/
def normalized_versions (manager : String) (versions : List (String × String)) :
    List (String × String) :=
  if manager = "npm" ∨ manager = "yarn" then
    (match versions.lookup "node" with
     | some v => [("runtime", v)]
     | none =>
       match versions.lookup "runtime" with
       | some v => [("runtime", v)]
       | none => []) ++
    (match versions.lookup "npm" with
     | some v => [("package_manager", v)]
     | none =>
       match versions.lookup "yarn" with
       | some v => [("package_manager", v)]
       | none =>
         match versions.lookup "package_manager" with
         | some v => [("package_manager", v)]
         | none => [])
  else if manager = "composer" then
    (match versions.lookup "php" with
     | some v => [("runtime", v)]
     | none =>
       match versions.lookup "runtime" with
       | some v => [("runtime", v)]
       | none => [])
  else versions

/-- The inner loop of `_is_version_supported` (handle_cache_request.py
lines 177-190): a support entry matches when every key it specifies is
present in the normalized tuple with an equal value. -/
def entry_matches (entry : List (String × String))
    (normalized : List (String × String)) : Bool :=
  entry.all (fun kv => normalized.lookup kv.1 == some kv.2)

/-- Embeds `HandleCacheRequest._is_version_supported` (handle_cache_request.py
lines 138-192).  `supported_versions` is the configured manager →
support-entry-list mapping. -/
def _is_version_supported
    (supported_versions : List (String × List (List (String × String))))
    (manager : String) (versions : List (String × String)) : Bool :=
  match supported_versions.lookup manager with
  | none => true
  | some supported_list =>
    if supported_list.isEmpty then true
    else
      supported_list.any
        (fun entry => entry_matches entry (normalized_versions manager versions))

/-- The installation method chosen on a cache miss. -/
inductive InstallMethod where
  | native
  | docker
deriving DecidableEq, Repr

/-- The handler's configuration slice (constructor arguments of
`HandleCacheRequest`, handle_cache_request.py lines 16-29).
`docker_available` models the `docker_utils` collaborator: `none` means
`docker_utils is None`; `some b` means it is present and
`is_available()` returns `b`. -/
structure HandlerConfig where
  supported_versions : List (String × List (List (String × String)))
  use_docker_on_version_mismatch : Bool
  docker_available : Option Bool
deriving Repr

/-- Embeds `HandleCacheRequest._determine_installation_method`
(handle_cache_request.py lines 194-202): native when the version policy
reports supported; otherwise docker when the mismatch fallback is enabled
and docker is present and available; otherwise a `ValueError` is raised. -/
def _determine_installation_method (cfg : HandlerConfig)
    (manager : String) (versions : List (String × String)) :
    Except String InstallMethod :=
  if _is_version_supported cfg.supported_versions manager versions then
    .ok .native
  else if cfg.use_docker_on_version_mismatch = true ∧ cfg.docker_available = some true then
    .ok .docker
  else
    .error ("Unsupported " ++ manager ++ " version and Docker is not available")

/-- The record stored per bundle by the index store: manager tag,
manager-version descriptor and the logical-path → blob-hash mapping
(spec §4.3). -/
structure IndexRecord where
  manager : String
  manager_version : String
  files : List (String × String)
deriving DecidableEq, Repr

/-- The cache repository's observable on-disk state: which bundle ids
have a saved index, and which have a materialized bundle archive. -/
structure CacheState where
  indexes : List (String × IndexRecord)
  bundles : List String
deriving Repr

/-- Modelled from the spec: `FileSystemCacheRepository.get_index`
(§4.3 `load(bundle_id) → index | missing`; the repository file
`infrastructure/file_system_cache_repository.py` is not in the
snapshot). -/
def get_index (st : CacheState) (bundle_hash : String) : Option IndexRecord :=
  st.indexes.lookup bundle_hash

/-- Modelled from the spec: `FileSystemCacheRepository.has_bundle`
(§4.3: true iff both the index and the materialized archive exist; the
repository file is not in the snapshot). -/
def has_bundle (st : CacheState) (bundle_hash : String) : Bool :=
  (st.indexes.lookup bundle_hash).isSome && st.bundles.contains bundle_hash

/-- Modelled from the spec: the content hash of a blob (§4.2, the same
collision-resistant algorithm as the bundle hash; `domain/hash_constants.py`
is not in the snapshot).  Modelled as an injective encoding of the
content. -/
def blob_hash (content : List Nat) : String :=
  encodeBytes content

/-- One observable side effect of the orchestrator: an installer
invocation (with the staged scratch-directory files), a blob write, an
index save, or a bundle archive generation. -/
inductive Event where
  | installNative (staged : List (String × List Nat))
  | installDocker (staged : List (String × List Nat))
  | storeBlob (file_hash : String) (content : List Nat)
  | saveIndex (bundle_hash : String) (manager : String)
      (manager_version : String) (index_data : List (String × String))
  | generateBundleZip (bundle_hash : String)
deriving DecidableEq, Repr

/-- The files `_install_natively` / `_install_with_docker` write into the
fresh scratch directory before invoking the installer
(handle_cache_request.py lines 212-219 and 246-253): the manifest always,
the lockfile only when its content is non-empty. -/
def staged_files (request : CacheRequest) : List (String × List Nat) :=
  [(manifest_name request.manager, request.manifest_content)] ++
  (if request.lockfile_content.isEmpty then []
   else [(lockfile_name request.manager, request.lockfile_content)])

/-- Embeds `HandleCacheRequest._install_natively` (handle_cache_request.py lines
204-227).  `native_install` is the installer capability: given the staged
scratch files it returns the `InstallationResult`. -/
def _install_natively
    (native_install : List (String × List Nat) → InstallationResult)
    (request : CacheRequest) : InstallationResult :=
  native_install (staged_files request)

/-- Embeds `HandleCacheRequest._install_with_docker` (handle_cache_request.py
lines 229-261): fails immediately when `docker_utils` is absent,
otherwise stages the same files and delegates to the isolation
capability. -/
def _install_with_docker (docker_available : Option Bool)
    (docker_install : List (String × List Nat) → InstallationResult)
    (request : CacheRequest) : InstallationResult :=
  match docker_available with
  | none => { success := false, files := [], error_message := some "Docker utils not available" }
  | some _ => docker_install (staged_files request)

/-- The manager-version descriptor computed inline in
`_store_dependency_set` (handle_cache_request.py lines 295-305):
`"<node>_<npm>"` only when the manager tag is exactly `"npm"` and both
versions are truthy; the runtime version for `"composer"` when truthy;
`"unknown"` otherwise (Python truthiness: `None` and `""` are falsy). -/
def manager_version_descriptor (s : DependencySet) : String :=
  if s.manager = "npm" then
    if pyTruthy s.node_version && pyTruthy s.npm_version then
      s.node_version.getD "" ++ "_" ++ s.npm_version.getD ""
    else "unknown"
  else if s.manager = "composer" then
    if pyTruthy s.php_version then s.php_version.getD "" else "unknown"
  else "unknown"

/-- The logical-path → blob-hash mapping accumulated by the blob-store
loop of `_store_dependency_set` (handle_cache_request.py lines 285-293). -/
def index_mapping (s : DependencySet) : List (String × String) :=
  s.files.map (fun f => (f.relative_path, blob_hash f.content))

/-- Embeds `HandleCacheRequest._store_dependency_set` (handle_cache_request.py
lines 280-312), as its event trace: every file's blob is stored first,
then the index is saved under the provided bundle hash, then the bundle
ZIP is generated. -/
def _store_dependency_set (s : DependencySet) (bundle_hash : String) :
    List Event :=
  (s.files.map (fun f => Event.storeBlob (blob_hash f.content) f.content)) ++
  [Event.saveIndex bundle_hash s.manager (manager_version_descriptor s)
    (index_mapping s)] ++
  [Event.generateBundleZip bundle_hash]

/-- The errors `handle` can raise: `ValueError` (unsupported version,
from `_determine_installation_method`) or `RuntimeError` (installation
failed). -/
inductive HandlerError where
  | valueError (msg : String)
  | runtimeError (msg : String)
deriving DecidableEq, Repr

/-- The `DependencySet` `handle` builds from the installer's output files
(handle_cache_request.py lines 61-70). -/
def output_dep_set (request : CacheRequest) (result : InstallationResult) :
    DependencySet :=
  let kw := _get_version_kwargs request.manager request.versions
  { manager := request.manager
    files := result.files.map (fun f =>
      { relative_path := f.relative_path, content := f.content })
    node_version := kw.node_version
    npm_version := kw.npm_version
    php_version := kw.php_version }

/-- Embeds `HandleCacheRequest.handle` (handle_cache_request.py lines 31-79):
computes the bundle hash once, probes the cache (hit requires a present
index and `has_bundle`), on a miss determines the installation method,
installs, and stores the result under the same hash.  Returns the
outcome together with the trace of observable side effects. -/
def handle (cfg : HandlerConfig) (st : CacheState)
    (native_install docker_install : List (String × List Nat) → InstallationResult)
    (request : CacheRequest) :
    Except HandlerError CacheResponse × List Event :=
  let request_hash := _calculate_bundle_hash request
  if (get_index st request_hash).isSome && has_bundle st request_hash then
    (.ok { bundle_hash := request_hash
           download_url := "/download/" ++ request_hash ++ ".zip"
           is_cache_hit := true }, [])
  else
    match _determine_installation_method cfg request.manager request.versions with
    | .error msg => (.error (.valueError msg), [])
    | .ok method =>
      let installEvent :=
        match method with
        | .docker => Event.installDocker (staged_files request)
        | .native => Event.installNative (staged_files request)
      let result :=
        match method with
        | .docker => _install_with_docker cfg.docker_available docker_install request
        | .native => _install_natively native_install request
      if result.success = false then
        (.error (.runtimeError ("Installation failed: " ++
          result.error_message.getD "None")), [installEvent])
      else
        let dependency_set := output_dep_set request result
        (.ok { bundle_hash := request_hash
               download_url := "/download/" ++ request_hash ++ ".zip"
               is_cache_hit := false },
         installEvent :: _store_dependency_set dependency_set request_hash)

/-- Python truthiness of an `Optional[bytes]`: `None` and `b""` are falsy. -/
def pyTruthyBytes : Option (List Nat) → Bool
  | none => false
  | some b => !b.isEmpty

/-- An HTTP error response (`fastapi.HTTPException`): status code and
detail string. -/
structure HttpError where
  status_code : Nat
  detail : String
deriving DecidableEq, Repr

/-- Mirrors `CacheResponseDTO` (api.py lines 39-42): the JSON body of a
successful `/v1/cache` response. -/
structure CacheResponseDTO where
  download_url : String
  cache_hit : Bool
deriving DecidableEq, Repr

/-- The parsed multipart form of a `/v1/cache` request (api.py lines
89-95).  `versions_json` is the outcome of `json.loads(versions)`
(`none` = decode error); `custom_args` is `none` when the field is
absent or falsy, otherwise the outcome of parsing it as a JSON array
(`Except.error e` = decode error or not an array, carrying `str(e)`);
`files` are the uploads as (filename, content) pairs. -/
structure ApiForm where
  manager : String
  hash : String
  versions_json : Option (List (String × String))
  custom_args : Option (Except String (List String)) := none
  files : List (String × List Nat)
deriving Repr

/-- The `manifest_names` table of the endpoint (api.py lines 141-145). -/
def api_manifest_name (manager : String) : Option String :=
  [("npm", "package.json"), ("yarn", "package.json"),
   ("composer", "composer.json")].lookup manager

/-- The `lockfile_names` table of the endpoint (api.py lines 146-150). -/
def api_lockfile_name (manager : String) : Option String :=
  [("npm", "package-lock.json"), ("yarn", "yarn.lock"),
   ("composer", "composer.lock")].lookup manager

/-- Python's `str.lower()`, as a character-wise map (kernel-computable
model of `filename.lower()`). -/
def pyLower (s : String) : String :=
  String.mk (s.data.map Char.toLower)

/-- Python's `needle in haystack` substring test, on character lists. -/
def charsContain (needle : List Char) : List Char → Bool
  | [] => needle.isEmpty
  | c :: cs => needle.isPrefixOf (c :: cs) || charsContain needle cs

/-- The file-classification loop of the endpoint (api.py lines 159-176):
each upload's lowercased filename is matched against the manifest name,
then the lockfile name, then substring containment; later files
overwrite earlier assignments. -/
def classify_files (mname lname : Option String)
    (files : List (String × List Nat)) :
    Option (List Nat) × Option (List Nat) :=
  files.foldl
    (fun acc f =>
      let filename := pyLower f.1
      if some filename = mname then (some f.2, acc.2)
      else if some filename = lname then (acc.1, some f.2)
      else if (match mname with
               | some m => charsContain m.toList filename.toList
               | none => false) then (some f.2, acc.2)
      else if (match lname with
               | some l => charsContain l.toList filename.toList
               | none => false) then (acc.1, some f.2)
      else acc)
    (none, none)

/-- The `/v1/cache` endpoint `cache_dependencies` (api.py lines 88-218),
past FastAPI's form parsing and on a configured server: validates the
form, builds the `CacheRequest` (note: the client-supplied `hash` field
is never read), invokes the orchestrator, and maps `ValueError` to
status 400 and any other exception to status 500. -/
def cache_dependencies (cfg : HandlerConfig) (st : CacheState)
    (base_url : String)
    (native_install docker_install : List (String × List Nat) → InstallationResult)
    (form : ApiForm) : Except HttpError CacheResponseDTO :=
  match form.versions_json with
  | none => .error { status_code := 400, detail := "Invalid versions JSON" }
  | some versions_dict =>
    match form.custom_args with
    | some (.error e) =>
      .error { status_code := 400, detail := "Invalid custom_args: " ++ e }
    | other =>
      let custom_args_list : Option (List String) :=
        match other with
        | some (.ok l) => some l
        | _ => none
      if (["npm", "composer", "yarn"].contains form.manager) = false then
        .error { status_code := 400, detail := "Unsupported manager: " ++ form.manager }
      else if form.files.isEmpty then
        .error { status_code := 400, detail := "No files provided" }
      else
        let mname := api_manifest_name form.manager
        let lname := api_lockfile_name form.manager
        let classified := classify_files mname lname form.files
        if pyTruthyBytes classified.1 = false then
          .error { status_code := 400
                   detail := "Error reading files: Missing required manifest file: " ++
                     mname.getD "None" }
        else
          let request : CacheRequest :=
            { manager := form.manager
              versions := versions_dict
              lockfile_content := (classified.2.getD [])
              manifest_content := (classified.1.getD [])
              custom_args := custom_args_list }
          match (handle cfg st native_install docker_install request).1 with
          | .ok resp =>
            .ok { download_url := base_url ++ resp.download_url
                  cache_hit := resp.is_cache_hit }
          | .error (.valueError msg) =>
            .error { status_code := 400, detail := msg }
          | .error (.runtimeError msg) =>
            .error { status_code := 500, detail := "Internal server error: " ++ msg }

/-- The manager-version descriptors carried by the `saveIndex` events of
a trace (there is exactly one per storage step). -/
def saved_manager_versions (events : List Event) : List String :=
  events.filterMap (fun e =>
    match e with
    | .saveIndex _ _ mv _ => some mv
    | _ => none)

/-! ### Concrete scenario inputs used by counterexamples and witnesses -/

/-- Scenario (b), first request: API role names `node`/`npm`. -/
def reqNodeNpm : CacheRequest :=
  { manager := "npm"
    versions := [("node", "20.0.0"), ("npm", "10.0.0")]
    lockfile_content := []
    manifest_content := [123, 125]
    custom_args := none }

/-- Scenario (b), second request: internal role names
`runtime`/`package_manager`; all other inputs equal to `reqNodeNpm`. -/
def reqRuntimePm : CacheRequest :=
  { reqNodeNpm with
    versions := [("runtime", "20.0.0"), ("package_manager", "10.0.0")] }

/-- A yarn dependency set carrying both a runtime and a package-manager
version. -/
def yarnDepSet : DependencySet :=
  { manager := "yarn"
    files := []
    node_version := some "20.0.0"
    npm_version := some "10.0.0"
    php_version := none }

/-- A concrete native installer capability: always succeeds with one
output file `node_modules/x/index.js = b"ok"` (scenario (a)). -/
def exNat : List (String × List Nat) → InstallationResult :=
  fun _ =>
    { success := true
      files := [{ relative_path := "node_modules/x/index.js", content := [111, 107] }]
      error_message := none }

/-- A concrete isolation capability that always fails. -/
def exDock : List (String × List Nat) → InstallationResult :=
  fun _ => { success := false, files := [], error_message := some "no docker" }

/-- A configuration with no version restrictions and no docker. -/
def exCfgOpen : HandlerConfig :=
  { supported_versions := []
    use_docker_on_version_mismatch := false
    docker_available := none }

/-- Scenario (c) configuration: npm support pinned to 18.0.0/9.0.0,
isolation disabled and unavailable. -/
def cfgUnsup : HandlerConfig :=
  { supported_versions :=
      [("npm", [[("runtime", "18.0.0"), ("package_manager", "9.0.0")]])]
    use_docker_on_version_mismatch := false
    docker_available := none }

/-- The bundle hash of the scenario-(b) request. -/
def exHash : String := _calculate_bundle_hash reqNodeNpm

/-- A concrete stored index record for the scenario request. -/
def exIdxRec : IndexRecord :=
  { manager := "npm", manager_version := "20.0.0_10.0.0", files := [] }

/-- Cache state holding a stale index for the scenario request: the
index is present but no archive has been materialized. -/
def stIndexOnly : CacheState :=
  { indexes := [(exHash, exIdxRec)], bundles := [] }

/-- The empty cache state. -/
def stEmpty : CacheState := { indexes := [], bundles := [] }

/-- The `CacheRequest` the endpoint constructs from a form that passes
validation (api.py lines 195-201), as a function of the form. -/
def built_request (form : ApiForm) : CacheRequest :=
  { manager := form.manager
    versions := form.versions_json.getD []
    lockfile_content :=
      (classify_files (api_manifest_name form.manager)
        (api_lockfile_name form.manager) form.files).2.getD []
    manifest_content :=
      (classify_files (api_manifest_name form.manager)
        (api_lockfile_name form.manager) form.files).1.getD []
    custom_args :=
      match form.custom_args with
      | some (.ok l) => some l
      | _ => none }

/-- A concrete `/v1/cache` form for scenario (c): a valid npm request
whose versions the `cfgUnsup` policy rejects. -/
def formUnsup : ApiForm :=
  { manager := "npm"
    hash := "deadbeef"
    versions_json := some [("node", "20.0.0"), ("npm", "10.0.0")]
    custom_args := none
    files := [("package.json", [123, 125])] }

/-- The miss response `handle` produces for the scenario request. -/
def respMiss : CacheResponse :=
  { bundle_hash := exHash
    download_url := "/download/" ++ exHash ++ ".zip"
    is_cache_hit := false }

/-- The event trace `handle` produces for the scenario request on a miss
with the concrete native installer. -/
def eventsMiss : List Event :=
  Event.installNative (staged_files reqNodeNpm) ::
    _store_dependency_set
      (output_dep_set reqNodeNpm (exNat (staged_files reqNodeNpm))) exHash

/-! ### Helper lemmas -/

/-- Lemma: `_determine_installation_method` chooses native when the version
policy reports supported. -/
theorem determine_native (cfg : HandlerConfig) (mgr : String)
    (vs : List (String × String))
    (hsup : _is_version_supported cfg.supported_versions mgr vs = true) :
    _determine_installation_method cfg mgr vs = .ok .native := by
  unfold _determine_installation_method
  simp [hsup]

/-- Lemma: `_determine_installation_method` chooses docker when the policy
rejects but the fallback is enabled and available. -/
theorem determine_docker (cfg : HandlerConfig) (mgr : String)
    (vs : List (String × String))
    (hunsup : _is_version_supported cfg.supported_versions mgr vs = false)
    (hen : cfg.use_docker_on_version_mismatch = true)
    (hav : cfg.docker_available = some true) :
    _determine_installation_method cfg mgr vs = .ok .docker := by
  unfold _determine_installation_method
  simp [hunsup, hen, hav]

/-- Lemma: `_determine_installation_method` raises when the policy rejects and
no docker fallback is enabled and available. -/
theorem determine_error (cfg : HandlerConfig) (mgr : String)
    (vs : List (String × String))
    (hunsup : _is_version_supported cfg.supported_versions mgr vs = false)
    (hnodock : ¬(cfg.use_docker_on_version_mismatch = true ∧
      cfg.docker_available = some true)) :
    _determine_installation_method cfg mgr vs =
      .error ("Unsupported " ++ mgr ++ " version and Docker is not available") := by
  unfold _determine_installation_method
  simp [hunsup, hnodock]

/-- The storage trace carries exactly one `saveIndex` event, holding the
inline manager-version descriptor. -/
theorem saved_manager_versions_store (s : DependencySet) (bh : String) :
    saved_manager_versions (_store_dependency_set s bh) =
      [manager_version_descriptor s] := by
  unfold saved_manager_versions _store_dependency_set
  induction s.files with
  | nil => rfl
  | cons f fs ih => simp only [List.map_cons, List.cons_append, List.filterMap_cons] at ih ⊢; exact ih

/-! ### C1 -/

/-- C1 counterexample: for the two scenario-(b) requests — identical
except that one names its versions `node`/`npm` and the other
`runtime`/`package_manager` — the orchestrator's fingerprint step yields
the SAME bundle id, because `_get_version_kwargs` folds both spellings
into the same `node_version`/`npm_version` kwargs before the dependency
set is fingerprinted.  This refutes the claim that the bundle ids
differ. -/
theorem bundle_hash_role_alias_counterexample :
    _calculate_bundle_hash reqNodeNpm = _calculate_bundle_hash reqRuntimePm ∧
    reqNodeNpm.versions ≠ reqRuntimePm.versions := by
  refine ⟨rfl, ?_⟩
  decide

/-- C1 (amended): for two cache requests identical except that one
carries `versions={node:"20.0.0", npm:"10.0.0"}` and the other
`versions={runtime:"20.0.0", package_manager:"10.0.0"}`, the bundle ids
computed by the orchestrator's fingerprint step are EQUAL, because the
fingerprint is taken over the dependency set built from the
policy-style-normalized kwargs of `_get_version_kwargs`, not over the
raw role names. -/
theorem bundle_hash_role_alias_equal (manifest lockfile : List Nat)
    (cargs : Option (List String)) :
    _calculate_bundle_hash
      { manager := "npm"
        versions := [("node", "20.0.0"), ("npm", "10.0.0")]
        lockfile_content := lockfile
        manifest_content := manifest
        custom_args := cargs } =
    _calculate_bundle_hash
      { manager := "npm"
        versions := [("runtime", "20.0.0"), ("package_manager", "10.0.0")]
        lockfile_content := lockfile
        manifest_content := manifest
        custom_args := cargs } := rfl

/-! ### C2 -/

/-- C2 counterexample: a stored yarn bundle with both the runtime and the
package-manager version present gets the manager-version descriptor
`"unknown"`, not `"20.0.0_10.0.0"`: the inline descriptor computation of
`_store_dependency_set` tests `manager == "npm"` only, so yarn falls
through to the `"unknown"` branch. -/
theorem yarn_descriptor_counterexample :
    saved_manager_versions (_store_dependency_set yarnDepSet "somehash") =
      ["unknown"] ∧
    ("unknown" : String) ≠ "20.0.0_10.0.0" := by
  refine ⟨rfl, ?_⟩
  decide

/-- C2 (amended): the manager-version descriptor written alongside the
index is `"<runtime_version>_<package_manager_version>"` only for
manager `npm` (when both versions are present and non-empty); for
`composer` it is the runtime version when present and non-empty; for
`yarn` and every other manager it is `"unknown"` (as it also is for
`npm`/`composer` with missing or empty versions). -/
theorem store_manager_version_descriptor (s : DependencySet) (bh : String) :
    (s.manager = "npm" → pyTruthy s.node_version = true →
       pyTruthy s.npm_version = true →
       saved_manager_versions (_store_dependency_set s bh) =
         [s.node_version.getD "" ++ "_" ++ s.npm_version.getD ""])
  ∧ (s.manager = "yarn" →
       saved_manager_versions (_store_dependency_set s bh) = ["unknown"])
  ∧ (s.manager = "composer" → pyTruthy s.php_version = true →
       saved_manager_versions (_store_dependency_set s bh) =
         [s.php_version.getD ""])
  ∧ (s.manager = "composer" → pyTruthy s.php_version = false →
       saved_manager_versions (_store_dependency_set s bh) = ["unknown"])
  ∧ (s.manager = "npm" →
       (pyTruthy s.node_version && pyTruthy s.npm_version) = false →
       saved_manager_versions (_store_dependency_set s bh) = ["unknown"])
  ∧ (s.manager ≠ "npm" → s.manager ≠ "composer" →
       saved_manager_versions (_store_dependency_set s bh) = ["unknown"]) := by
  rw [saved_manager_versions_store]
  refine ⟨?_, ?_, ?_, ?_, ?_, ?_⟩
  · intro h1 h2 h3
    simp [manager_version_descriptor, h1, h2, h3]
  · intro h1
    simp [manager_version_descriptor, h1]
  · intro h1 h2
    simp [manager_version_descriptor, h1, h2]
  · intro h1 h2
    simp [manager_version_descriptor, h1, h2]
  · intro h1 h2
    simp [manager_version_descriptor, h1, h2]
  · intro h1 h2
    simp [manager_version_descriptor, h1, h2]

/-- C2 witness: the amended descriptor statement applied to the concrete
yarn dependency set. -/
theorem store_manager_version_descriptor_witness :
    saved_manager_versions (_store_dependency_set yarnDepSet "somehash") =
      ["unknown"] :=
  (store_manager_version_descriptor yarnDepSet "somehash").2.1 rfl

/-! ### C6 -/

/-- C6: an empty lockfile is neither written to the scratch directory
(only the manifest is staged) nor added to the canonical file list that
feeds the fingerprint; a non-empty lockfile is both staged and
fingerprinted. -/
theorem empty_lockfile_staging_and_fingerprint (req : CacheRequest) :
    (req.lockfile_content = [] →
       staged_files req = [(manifest_name req.manager, req.manifest_content)] ∧
       bundle_hash_files req =
         [{ relative_path := manifest_name req.manager
            content := req.manifest_content }])
  ∧ (req.lockfile_content ≠ [] →
       staged_files req =
         [(manifest_name req.manager, req.manifest_content),
          (lockfile_name req.manager, req.lockfile_content)] ∧
       bundle_hash_files req =
         [{ relative_path := lockfile_name req.manager
            content := req.lockfile_content },
          { relative_path := manifest_name req.manager
            content := req.manifest_content }]) := by
  constructor <;> intro h
  · simp [staged_files, bundle_hash_files, h]
  · simp [staged_files, bundle_hash_files, List.isEmpty_iff, h]

/-- C6 witness: the staging/fingerprint statement applied to the
scenario-(b) request, whose lockfile is empty. -/
theorem empty_lockfile_staging_and_fingerprint_witness :
    staged_files reqNodeNpm =
      [(manifest_name reqNodeNpm.manager, reqNodeNpm.manifest_content)] ∧
    bundle_hash_files reqNodeNpm =
      [{ relative_path := manifest_name reqNodeNpm.manager
         content := reqNodeNpm.manifest_content }] :=
  (empty_lockfile_staging_and_fingerprint reqNodeNpm).1 rfl

/-! ### C7 -/

/-- C7: the version-support check reports supported exactly when the
manager has no configured support list, the configured list is empty, or
some support entry has every one of its keys present in the normalized
tuple with an equal value; and the normalization maps `node`/`runtime`
to `runtime` and `npm`/`yarn`/`package_manager` to `package_manager`
for npm and yarn (dropping every other role), `php`/`runtime` to
`runtime` for composer (dropping every other role), and is the identity
for any other manager. -/
theorem version_support_characterization
    (sv : List (String × List (List (String × String))))
    (manager : String) (versions : List (String × String)) :
    (_is_version_supported sv manager versions = true ↔
       (sv.lookup manager = none ∨ sv.lookup manager = some [] ∨
        ∃ l, sv.lookup manager = some l ∧
          ∃ entry ∈ l, ∀ kv ∈ entry,
            (normalized_versions manager versions).lookup kv.1 = some kv.2))
  ∧ ((manager = "npm" ∨ manager = "yarn") →
       ((normalized_versions manager versions).lookup "runtime" =
          ((versions.lookup "node").or (versions.lookup "runtime")) ∧
        (normalized_versions manager versions).lookup "package_manager" =
          (((versions.lookup "npm").or (versions.lookup "yarn")).or
            (versions.lookup "package_manager")) ∧
        ∀ k, k ≠ "runtime" → k ≠ "package_manager" →
          (normalized_versions manager versions).lookup k = none))
  ∧ (manager = "composer" →
       ((normalized_versions manager versions).lookup "runtime" =
          ((versions.lookup "php").or (versions.lookup "runtime")) ∧
        ∀ k, k ≠ "runtime" →
          (normalized_versions manager versions).lookup k = none))
  ∧ (manager ≠ "npm" → manager ≠ "yarn" → manager ≠ "composer" →
       normalized_versions manager versions = versions) := by
  refine ⟨?_, ?_, ?_, ?_⟩
  · unfold _is_version_supported entry_matches
    cases h : sv.lookup manager with
    | none => simp
    | some l =>
      cases l with
      | nil => simp
      | cons e es => simp [List.any_eq_true, List.all_eq_true]
  · intro hm
    unfold normalized_versions
    rw [if_pos hm]
    refine ⟨?_, ?_, ?_⟩
    · cases hn : versions.lookup "node" with
      | some v => simp [List.lookup]
      | none =>
        cases hr : versions.lookup "runtime" with
        | some w => simp [List.lookup]
        | none =>
          cases hnpm : versions.lookup "npm" with
          | some v => simp [List.lookup]
          | none =>
            cases hyarn : versions.lookup "yarn" with
            | some v => simp [List.lookup]
            | none =>
              cases hpm : versions.lookup "package_manager" with
              | some v => simp [List.lookup]
              | none => simp [List.lookup]
    · cases hnpm : versions.lookup "npm" with
      | some v =>
        cases hn : versions.lookup "node" with
        | some w => simp [List.lookup]
        | none =>
          cases hr : versions.lookup "runtime" with
          | some w => simp [List.lookup]
          | none => simp [List.lookup]
      | none =>
        cases hyarn : versions.lookup "yarn" with
        | some v =>
          cases hn : versions.lookup "node" with
          | some w => simp [List.lookup]
          | none =>
            cases hr : versions.lookup "runtime" with
            | some w => simp [List.lookup]
            | none => simp [List.lookup]
        | none =>
          cases hpm : versions.lookup "package_manager" with
          | some v =>
            cases hn : versions.lookup "node" with
            | some w => simp [List.lookup]
            | none =>
              cases hr : versions.lookup "runtime" with
              | some w => simp [List.lookup]
              | none => simp [List.lookup]
          | none =>
            cases hn : versions.lookup "node" with
            | some w => simp [List.lookup]
            | none =>
              cases hr : versions.lookup "runtime" with
              | some w => simp [List.lookup]
              | none => simp [List.lookup]
    · intro k hk1 hk2
      cases hn : versions.lookup "node" <;>
        cases hr : versions.lookup "runtime" <;>
          cases hnpm : versions.lookup "npm" <;>
            cases hyarn : versions.lookup "yarn" <;>
              cases hpm : versions.lookup "package_manager" <;>
                simp [List.lookup, beq_false_of_ne hk1, beq_false_of_ne hk2]
  · intro hm
    unfold normalized_versions
    rw [if_neg (by simp [hm]), if_pos hm]
    constructor
    · cases hp : versions.lookup "php" with
      | some v => simp [List.lookup]
      | none =>
        cases hr : versions.lookup "runtime" with
        | some w => simp [List.lookup]
        | none => simp [List.lookup]
    · intro k hk
      cases hp : versions.lookup "php" <;>
        cases hr : versions.lookup "runtime" <;>
          simp [List.lookup, beq_false_of_ne hk]
  · intro h1 h2 h3
    unfold normalized_versions
    rw [if_neg (by simp [h1, h2]), if_neg h3]

/-- C7 witness: the characterization applied to a concrete configured
npm support list and an aliased request tuple, extracting the matching
entry. -/
theorem version_support_characterization_witness :
    [("npm", [[("runtime", "20.0.0"), ("package_manager", "10.0.0")]])].lookup "npm" = none ∨
    ([("npm", [[("runtime", "20.0.0"), ("package_manager", "10.0.0")]])].lookup "npm" =
      some []) ∨
    ∃ l, [("npm", [[("runtime", "20.0.0"), ("package_manager", "10.0.0")]])].lookup "npm" =
        some l ∧
      ∃ entry ∈ l, ∀ kv ∈ entry,
        (normalized_versions "npm"
          [("node", "20.0.0"), ("npm", "10.0.0")]).lookup kv.1 = some kv.2 :=
  (version_support_characterization
    [("npm", [[("runtime", "20.0.0"), ("package_manager", "10.0.0")]])]
    "npm" [("node", "20.0.0"), ("npm", "10.0.0")]).1.mp (by decide)

/-! ### Reduction lemmas for `handle` -/

/-- On a cache hit (present index and `has_bundle`), `handle` answers
immediately with no side effects. -/
theorem handle_hit_eq (cfg : HandlerConfig) (st : CacheState)
    (ni di : List (String × List Nat) → InstallationResult) (req : CacheRequest)
    (hhit : ((get_index st (_calculate_bundle_hash req)).isSome &&
      has_bundle st (_calculate_bundle_hash req)) = true) :
    handle cfg st ni di req =
      (.ok { bundle_hash := _calculate_bundle_hash req
             download_url := "/download/" ++ _calculate_bundle_hash req ++ ".zip"
             is_cache_hit := true }, []) := by
  unfold handle
  simp [hhit]

/-- On a cache miss with an unsupported version and no docker fallback,
`handle` raises the `ValueError` and performs no side effects. -/
theorem handle_miss_error_eq (cfg : HandlerConfig) (st : CacheState)
    (ni di : List (String × List Nat) → InstallationResult) (req : CacheRequest)
    (msg : String)
    (hmiss : ((get_index st (_calculate_bundle_hash req)).isSome &&
      has_bundle st (_calculate_bundle_hash req)) = false)
    (herr : _determine_installation_method cfg req.manager req.versions =
      .error msg) :
    handle cfg st ni di req = (.error (.valueError msg), []) := by
  unfold handle
  simp [hmiss, herr]

/-- On a cache miss with the native method and a failing installer,
`handle` raises the `RuntimeError` after the single install attempt. -/
theorem handle_miss_native_fail_eq (cfg : HandlerConfig) (st : CacheState)
    (ni di : List (String × List Nat) → InstallationResult) (req : CacheRequest)
    (hmiss : ((get_index st (_calculate_bundle_hash req)).isSome &&
      has_bundle st (_calculate_bundle_hash req)) = false)
    (hnat : _determine_installation_method cfg req.manager req.versions =
      .ok .native)
    (hfail : (_install_natively ni req).success = false) :
    handle cfg st ni di req =
      (.error (.runtimeError ("Installation failed: " ++
        (_install_natively ni req).error_message.getD "None")),
       [Event.installNative (staged_files req)]) := by
  unfold handle
  simp [hmiss, hnat, hfail]

/-- On a cache miss with the native method and a successful install,
`handle` stores the result under the request hash and responds with
`cache_hit = false`. -/
theorem handle_miss_native_ok_eq (cfg : HandlerConfig) (st : CacheState)
    (ni di : List (String × List Nat) → InstallationResult) (req : CacheRequest)
    (hmiss : ((get_index st (_calculate_bundle_hash req)).isSome &&
      has_bundle st (_calculate_bundle_hash req)) = false)
    (hnat : _determine_installation_method cfg req.manager req.versions =
      .ok .native)
    (hsucc : (_install_natively ni req).success = true) :
    handle cfg st ni di req =
      (.ok { bundle_hash := _calculate_bundle_hash req
             download_url := "/download/" ++ _calculate_bundle_hash req ++ ".zip"
             is_cache_hit := false },
       Event.installNative (staged_files req) ::
         _store_dependency_set (output_dep_set req (_install_natively ni req))
           (_calculate_bundle_hash req)) := by
  unfold handle
  simp [hmiss, hnat, hsucc]

/-- On a cache miss with the docker method and a failing install,
`handle` raises the `RuntimeError` after the single install attempt. -/
theorem handle_miss_docker_fail_eq (cfg : HandlerConfig) (st : CacheState)
    (ni di : List (String × List Nat) → InstallationResult) (req : CacheRequest)
    (hmiss : ((get_index st (_calculate_bundle_hash req)).isSome &&
      has_bundle st (_calculate_bundle_hash req)) = false)
    (hdock : _determine_installation_method cfg req.manager req.versions =
      .ok .docker)
    (hfail : (_install_with_docker cfg.docker_available di req).success = false) :
    handle cfg st ni di req =
      (.error (.runtimeError ("Installation failed: " ++
        (_install_with_docker cfg.docker_available di req).error_message.getD "None")),
       [Event.installDocker (staged_files req)]) := by
  unfold handle
  simp [hmiss, hdock, hfail]

/-- On a cache miss with the docker method and a successful install,
`handle` stores the result under the request hash and responds with
`cache_hit = false`. -/
theorem handle_miss_docker_ok_eq (cfg : HandlerConfig) (st : CacheState)
    (ni di : List (String × List Nat) → InstallationResult) (req : CacheRequest)
    (hmiss : ((get_index st (_calculate_bundle_hash req)).isSome &&
      has_bundle st (_calculate_bundle_hash req)) = false)
    (hdock : _determine_installation_method cfg req.manager req.versions =
      .ok .docker)
    (hsucc : (_install_with_docker cfg.docker_available di req).success = true) :
    handle cfg st ni di req =
      (.ok { bundle_hash := _calculate_bundle_hash req
             download_url := "/download/" ++ _calculate_bundle_hash req ++ ".zip"
             is_cache_hit := false },
       Event.installDocker (staged_files req) ::
         _store_dependency_set
           (output_dep_set req (_install_with_docker cfg.docker_available di req))
           (_calculate_bundle_hash req)) := by
  unfold handle
  simp [hmiss, hdock, hsucc]

/-- Any successful `handle` outcome carries the request's own bundle
hash and the download path derived from it. -/
theorem handle_ok_resp (cfg : HandlerConfig) (st : CacheState)
    (ni di : List (String × List Nat) → InstallationResult) (req : CacheRequest)
    (resp : CacheResponse) (events : List Event)
    (h : handle cfg st ni di req = (.ok resp, events)) :
    resp.bundle_hash = _calculate_bundle_hash req ∧
    resp.download_url = "/download/" ++ _calculate_bundle_hash req ++ ".zip" := by
  by_cases hc : ((get_index st (_calculate_bundle_hash req)).isSome &&
      has_bundle st (_calculate_bundle_hash req)) = true
  · rw [handle_hit_eq cfg st ni di req hc] at h
    obtain ⟨h1, h2⟩ := Prod.mk.injEq _ _ _ _ ▸ h
    obtain rfl : _ = resp := Except.ok.inj h1
    exact ⟨rfl, rfl⟩
  · have hc' : ((get_index st (_calculate_bundle_hash req)).isSome &&
        has_bundle st (_calculate_bundle_hash req)) = false := by
      simpa using hc
    cases hd : _determine_installation_method cfg req.manager req.versions with
    | error msg =>
      rw [handle_miss_error_eq cfg st ni di req msg hc' hd] at h
      exact absurd (congrArg Prod.fst h) (by simp)
    | ok m =>
      cases m with
      | native =>
        cases hs : (_install_natively ni req).success with
        | false =>
          rw [handle_miss_native_fail_eq cfg st ni di req hc' hd hs] at h
          exact absurd (congrArg Prod.fst h) (by simp)
        | true =>
          rw [handle_miss_native_ok_eq cfg st ni di req hc' hd hs] at h
          obtain ⟨h1, h2⟩ := Prod.mk.injEq _ _ _ _ ▸ h
          obtain rfl : _ = resp := Except.ok.inj h1
          exact ⟨rfl, rfl⟩
      | docker =>
        cases hs : (_install_with_docker cfg.docker_available di req).success with
        | false =>
          rw [handle_miss_docker_fail_eq cfg st ni di req hc' hd hs] at h
          exact absurd (congrArg Prod.fst h) (by simp)
        | true =>
          rw [handle_miss_docker_ok_eq cfg st ni di req hc' hd hs] at h
          obtain ⟨h1, h2⟩ := Prod.mk.injEq _ _ _ _ ▸ h
          obtain rfl : _ = resp := Except.ok.inj h1
          exact ⟨rfl, rfl⟩

/-- A saved index in the storage trace always carries the bundle hash
the store step was given. -/
theorem store_saveIndex_hash (s : DependencySet) (bh bh2 m mv : String)
    (d : List (String × String))
    (hmem : Event.saveIndex bh2 m mv d ∈ _store_dependency_set s bh) :
    bh2 = bh := by
  unfold _store_dependency_set at hmem
  simp only [List.mem_append, List.mem_map, List.mem_singleton] at hmem
  rcases hmem with (⟨f, _, hf⟩ | he) | he
  · cases hf
  · cases he
    rfl
  · cases he

/-- A generated archive in the storage trace always carries the bundle
hash the store step was given. -/
theorem store_zip_hash (s : DependencySet) (bh bh2 : String)
    (hmem : Event.generateBundleZip bh2 ∈ _store_dependency_set s bh) :
    bh2 = bh := by
  unfold _store_dependency_set at hmem
  simp only [List.mem_append, List.mem_map, List.mem_singleton] at hmem
  rcases hmem with (⟨f, _, hf⟩ | he) | he
  · cases hf
  · cases he
  · cases he
    rfl

/-- Every index save and archive generation in a `handle` trace uses the
request's own bundle hash. -/
theorem handle_events_hashes (cfg : HandlerConfig) (st : CacheState)
    (ni di : List (String × List Nat) → InstallationResult) (req : CacheRequest) :
    (∀ bh m mv d, Event.saveIndex bh m mv d ∈ (handle cfg st ni di req).2 →
       bh = _calculate_bundle_hash req) ∧
    (∀ bh, Event.generateBundleZip bh ∈ (handle cfg st ni di req).2 →
       bh = _calculate_bundle_hash req) := by
  by_cases hc : ((get_index st (_calculate_bundle_hash req)).isSome &&
      has_bundle st (_calculate_bundle_hash req)) = true
  · rw [handle_hit_eq cfg st ni di req hc]
    constructor
    · intro bh m mv d hmem
      cases hmem
    · intro bh hmem
      cases hmem
  · have hc' : ((get_index st (_calculate_bundle_hash req)).isSome &&
        has_bundle st (_calculate_bundle_hash req)) = false := by
      simpa using hc
    cases hd : _determine_installation_method cfg req.manager req.versions with
    | error msg =>
      rw [handle_miss_error_eq cfg st ni di req msg hc' hd]
      constructor
      · intro bh m mv d hmem
        cases hmem
      · intro bh hmem
        cases hmem
    | ok meth =>
      cases meth with
      | native =>
        cases hs : (_install_natively ni req).success with
        | false =>
          rw [handle_miss_native_fail_eq cfg st ni di req hc' hd hs]
          constructor
          · intro bh m mv d hmem
            rcases List.mem_singleton.mp hmem with h
            cases h
          · intro bh hmem
            rcases List.mem_singleton.mp hmem with h
            cases h
        | true =>
          rw [handle_miss_native_ok_eq cfg st ni di req hc' hd hs]
          constructor
          · intro bh m mv d hmem
            rcases List.mem_cons.mp hmem with h | h
            · cases h
            · exact store_saveIndex_hash _ _ _ _ _ _ h
          · intro bh hmem
            rcases List.mem_cons.mp hmem with h | h
            · cases h
            · exact store_zip_hash _ _ _ h
      | docker =>
        cases hs : (_install_with_docker cfg.docker_available di req).success with
        | false =>
          rw [handle_miss_docker_fail_eq cfg st ni di req hc' hd hs]
          constructor
          · intro bh m mv d hmem
            rcases List.mem_singleton.mp hmem with h
            cases h
          · intro bh hmem
            rcases List.mem_singleton.mp hmem with h
            cases h
        | true =>
          rw [handle_miss_docker_ok_eq cfg st ni di req hc' hd hs]
          constructor
          · intro bh m mv d hmem
            rcases List.mem_cons.mp hmem with h | h
            · cases h
            · exact store_saveIndex_hash _ _ _ _ _ _ h
          · intro bh hmem
            rcases List.mem_cons.mp hmem with h | h
            · cases h
            · exact store_zip_hash _ _ _ h

/-! ### C9 -/

/-- C9: within a single request's storage step the operations occur in
the fixed order blobs → index → archive: the trace consists of the blob
writes (one per output file), then exactly one index save, then the
bundle archive generation last; the archive is never produced before the
index, and the index never before all referenced blobs. -/
theorem store_order_blobs_index_archive (s : DependencySet) (bh : String) :
    ∃ n, (_store_dependency_set s bh).length = n + 2 ∧
      (∀ i, i < n → ∃ fh c,
        (_store_dependency_set s bh)[i]? = some (Event.storeBlob fh c)) ∧
      (∃ mv d, (_store_dependency_set s bh)[n]? =
        some (Event.saveIndex bh s.manager mv d)) ∧
      (_store_dependency_set s bh)[n + 1]? =
        some (Event.generateBundleZip bh) := by
  refine ⟨s.files.length, ?_, ?_, ?_, ?_⟩
  · simp [_store_dependency_set]
  · intro i hi
    refine ⟨blob_hash (s.files.get ⟨i, hi⟩).content,
      (s.files.get ⟨i, hi⟩).content, ?_⟩
    have h1 : i < (s.files.map
        (fun f => Event.storeBlob (blob_hash f.content) f.content)).length := by
      simpa using hi
    unfold _store_dependency_set
    rw [List.getElem?_append_left (by simp; omega),
      List.getElem?_append_left h1, List.getElem?_map]
    simp [List.getElem?_eq_getElem hi]
  · refine ⟨manager_version_descriptor s, index_mapping s, ?_⟩
    unfold _store_dependency_set
    rw [List.getElem?_append_left (by simp), List.getElem?_append_right (by simp)]
    simp
  · unfold _store_dependency_set
    rw [List.getElem?_append_right (by simp)]
    simp

/-- C9 witness: the storage-order statement applied to the concrete yarn
dependency set. -/
theorem store_order_blobs_index_archive_witness :
    ∃ n, (_store_dependency_set yarnDepSet "somehash2").length = n + 2 ∧
      (∀ i, i < n → ∃ fh c,
        (_store_dependency_set yarnDepSet "somehash2")[i]? =
          some (Event.storeBlob fh c)) ∧
      (∃ mv d, (_store_dependency_set yarnDepSet "somehash2")[n]? =
        some (Event.saveIndex "somehash2" yarnDepSet.manager mv d)) ∧
      (_store_dependency_set yarnDepSet "somehash2")[n + 1]? =
        some (Event.generateBundleZip "somehash2") :=
  store_order_blobs_index_archive yarnDepSet "somehash2"

/-! ### C10 -/

/-- C10: the client-supplied `hash` form field of `/v1/cache` has no
influence on the outcome: two otherwise-identical requests differing
only in that field produce identical endpoint results (same bundle id in
the download URL, same cache-hit flag, same errors), because the handler
recomputes the fingerprint from manager, versions, manifest and lockfile
and never reads the supplied hash. -/
theorem client_hash_field_has_no_influence
    (cfg : HandlerConfig) (st : CacheState) (base_url : String)
    (ni di : List (String × List Nat) → InstallationResult)
    (manager h1 h2 : String) (vj : Option (List (String × String)))
    (ca : Option (Except String (List String)))
    (files : List (String × List Nat)) :
    cache_dependencies cfg st base_url ni di
      { manager := manager, hash := h1, versions_json := vj
        custom_args := ca, files := files } =
    cache_dependencies cfg st base_url ni di
      { manager := manager, hash := h2, versions_json := vj
        custom_args := ca, files := files } := rfl

/-! ### C4 -/

/-- C4: `handle` answers with `cache_hit = true` only when both the
bundle's index and its materialized archive are present; when an index
exists but the archive does not, the request is treated as a miss and
the install path runs (the trace starts with an installer
invocation). -/
theorem cache_hit_requires_index_and_archive
    (cfg : HandlerConfig) (st : CacheState)
    (ni di : List (String × List Nat) → InstallationResult) (req : CacheRequest)
    (resp : CacheResponse) (events : List Event)
    (hok : handle cfg st ni di req = (.ok resp, events)) :
    (resp.is_cache_hit = true →
       (get_index st (_calculate_bundle_hash req)).isSome = true ∧
       has_bundle st (_calculate_bundle_hash req) = true)
  ∧ ((get_index st (_calculate_bundle_hash req)).isSome = true →
     st.bundles.contains (_calculate_bundle_hash req) = false →
       resp.is_cache_hit = false ∧
       (∃ staged, events.head? = some (Event.installNative staged) ∨
         events.head? = some (Event.installDocker staged))) := by
  by_cases hc : ((get_index st (_calculate_bundle_hash req)).isSome &&
      has_bundle st (_calculate_bundle_hash req)) = true
  · rw [handle_hit_eq cfg st ni di req hc] at hok
    obtain ⟨h1, h2⟩ := Prod.mk.injEq _ _ _ _ ▸ hok
    obtain rfl : _ = resp := Except.ok.inj h1
    have hpair : (get_index st (_calculate_bundle_hash req)).isSome = true ∧
        has_bundle st (_calculate_bundle_hash req) = true := by
      simpa using hc
    constructor
    · intro _
      exact hpair
    · intro hidx harch
      exfalso
      have hb := hpair.2
      unfold has_bundle at hb
      rw [harch] at hb
      simp at hb
  · have hc' : ((get_index st (_calculate_bundle_hash req)).isSome &&
        has_bundle st (_calculate_bundle_hash req)) = false := by
      simpa using hc
    cases hd : _determine_installation_method cfg req.manager req.versions with
    | error msg =>
      rw [handle_miss_error_eq cfg st ni di req msg hc' hd] at hok
      exact absurd (congrArg Prod.fst hok) (by simp)
    | ok meth =>
      cases meth with
      | native =>
        cases hs : (_install_natively ni req).success with
        | false =>
          rw [handle_miss_native_fail_eq cfg st ni di req hc' hd hs] at hok
          exact absurd (congrArg Prod.fst hok) (by simp)
        | true =>
          rw [handle_miss_native_ok_eq cfg st ni di req hc' hd hs] at hok
          obtain ⟨h1, h2⟩ := Prod.mk.injEq _ _ _ _ ▸ hok
          obtain rfl : _ = resp := Except.ok.inj h1
          subst h2
          constructor
          · intro hcontra
            cases hcontra
          · intro _ _
            exact ⟨rfl, ⟨staged_files req, Or.inl rfl⟩⟩
      | docker =>
        cases hs : (_install_with_docker cfg.docker_available di req).success with
        | false =>
          rw [handle_miss_docker_fail_eq cfg st ni di req hc' hd hs] at hok
          exact absurd (congrArg Prod.fst hok) (by simp)
        | true =>
          rw [handle_miss_docker_ok_eq cfg st ni di req hc' hd hs] at hok
          obtain ⟨h1, h2⟩ := Prod.mk.injEq _ _ _ _ ▸ hok
          obtain rfl : _ = resp := Except.ok.inj h1
          subst h2
          constructor
          · intro hcontra
            cases hcontra
          · intro _ _
            exact ⟨rfl, ⟨staged_files req, Or.inr rfl⟩⟩

/-- C4 witness: with a stale index (present index, no archive) for the
scenario request, `handle` treats the request as a miss and invokes the
installer. -/
theorem cache_hit_requires_index_and_archive_witness :
    respMiss.is_cache_hit = false ∧
    (∃ staged, eventsMiss.head? = some (Event.installNative staged) ∨
      eventsMiss.head? = some (Event.installDocker staged)) :=
  (cache_hit_requires_index_and_archive exCfgOpen stIndexOnly exNat exDock
    reqNodeNpm respMiss eventsMiss rfl).2 rfl rfl

/-! ### C5 -/

/-- C5: within a single `handle` invocation the bundle id is computed
once from the request's declared manifest, lockfile and versions: the
response's bundle id and download path carry exactly
`_calculate_bundle_hash request`, every index save and archive
generation in the trace uses that same value, and the value is never
recomputed from the installer's output — swapping the installer
capabilities cannot change the response's bundle id. -/
theorem bundle_hash_computed_once
    (cfg : HandlerConfig) (st : CacheState)
    (ni di : List (String × List Nat) → InstallationResult) (req : CacheRequest)
    (resp : CacheResponse) (events : List Event)
    (hok : handle cfg st ni di req = (.ok resp, events)) :
    resp.bundle_hash = _calculate_bundle_hash req ∧
    resp.download_url = "/download/" ++ _calculate_bundle_hash req ++ ".zip" ∧
    (∀ bh m mv d, Event.saveIndex bh m mv d ∈ events →
       bh = _calculate_bundle_hash req) ∧
    (∀ bh, Event.generateBundleZip bh ∈ events →
       bh = _calculate_bundle_hash req) ∧
    (∀ ni2 di2 resp2 events2,
       handle cfg st ni2 di2 req = (.ok resp2, events2) →
       resp2.bundle_hash = resp.bundle_hash) := by
  obtain ⟨hb, hu⟩ := handle_ok_resp cfg st ni di req resp events hok
  have hev : events = (handle cfg st ni di req).2 := by rw [hok]
  refine ⟨hb, hu, ?_, ?_, ?_⟩
  · intro bh m mv d hmem
    rw [hev] at hmem
    exact (handle_events_hashes cfg st ni di req).1 bh m mv d hmem
  · intro bh hmem
    rw [hev] at hmem
    exact (handle_events_hashes cfg st ni di req).2 bh hmem
  · intro ni2 di2 resp2 events2 h2
    rw [(handle_ok_resp cfg st ni2 di2 req resp2 events2 h2).1, hb]

/-- C5 witness: the single-computation statement applied to the
scenario request on the empty cache, extracting the response-hash
equation. -/
theorem bundle_hash_computed_once_witness :
    respMiss.bundle_hash = _calculate_bundle_hash reqNodeNpm :=
  (bundle_hash_computed_once exCfgOpen stEmpty exNat exDock reqNodeNpm
    respMiss eventsMiss rfl).1

/-! ### C8 -/

/-- C8: on a cache miss the installation method is native when the
version policy reports supported; otherwise docker when
isolation-on-mismatch is enabled and the isolation capability is
available (the trace then starts with the corresponding installer
invocation); otherwise `handle` fails fast with the UnsupportedVersion
`ValueError` and its trace is empty — no install is attempted. -/
theorem install_method_selection
    (cfg : HandlerConfig) (st : CacheState)
    (ni di : List (String × List Nat) → InstallationResult) (req : CacheRequest)
    (hmiss : ((get_index st (_calculate_bundle_hash req)).isSome &&
      has_bundle st (_calculate_bundle_hash req)) = false) :
    (_is_version_supported cfg.supported_versions req.manager req.versions = true →
       _determine_installation_method cfg req.manager req.versions = .ok .native ∧
       (handle cfg st ni di req).2.head? =
         some (Event.installNative (staged_files req)))
  ∧ (_is_version_supported cfg.supported_versions req.manager req.versions = false →
     cfg.use_docker_on_version_mismatch = true →
     cfg.docker_available = some true →
       _determine_installation_method cfg req.manager req.versions = .ok .docker ∧
       (handle cfg st ni di req).2.head? =
         some (Event.installDocker (staged_files req)))
  ∧ (_is_version_supported cfg.supported_versions req.manager req.versions = false →
     ¬(cfg.use_docker_on_version_mismatch = true ∧
       cfg.docker_available = some true) →
       (handle cfg st ni di req).1 =
         .error (.valueError ("Unsupported " ++ req.manager ++
           " version and Docker is not available")) ∧
       (handle cfg st ni di req).2 = []) := by
  refine ⟨?_, ?_, ?_⟩
  · intro hsup
    have hd := determine_native cfg req.manager req.versions hsup
    refine ⟨hd, ?_⟩
    cases hs : (_install_natively ni req).success with
    | false =>
      rw [handle_miss_native_fail_eq cfg st ni di req hmiss hd hs]
      rfl
    | true =>
      rw [handle_miss_native_ok_eq cfg st ni di req hmiss hd hs]
      rfl
  · intro hunsup hen hav
    have hd := determine_docker cfg req.manager req.versions hunsup hen hav
    refine ⟨hd, ?_⟩
    cases hs : (_install_with_docker cfg.docker_available di req).success with
    | false =>
      rw [handle_miss_docker_fail_eq cfg st ni di req hmiss hd hs]
      rfl
    | true =>
      rw [handle_miss_docker_ok_eq cfg st ni di req hmiss hd hs]
      rfl
  · intro hunsup hnodock
    have hd := determine_error cfg req.manager req.versions hunsup hnodock
    rw [handle_miss_error_eq cfg st ni di req _ hmiss hd]
    exact ⟨rfl, rfl⟩

/-- C8 witness: the method-selection statement applied to scenario (c)
(pinned support list, isolation disabled), extracting the fail-fast
branch. -/
theorem install_method_selection_witness :
    (handle cfgUnsup stEmpty exNat exDock reqNodeNpm).1 =
      .error (.valueError ("Unsupported " ++ reqNodeNpm.manager ++
        " version and Docker is not available")) ∧
    (handle cfgUnsup stEmpty exNat exDock reqNodeNpm).2 = [] :=
  (install_method_selection cfgUnsup stEmpty exNat exDock reqNodeNpm rfl).2.2
    (by decide) (by simp [cfgUnsup])

/-! ### C3 -/

/-- C3 counterexample: scenario (c) at the HTTP surface.  The version
policy rejects the request and no isolation fallback is enabled or
available, and the resulting UnsupportedVersion `ValueError` is surfaced
to the client as HTTP status 400 — a client error — refuting the claim
that it maps to a server error. -/
theorem unsupported_version_status_counterexample :
    _is_version_supported cfgUnsup.supported_versions "npm"
      [("node", "20.0.0"), ("npm", "10.0.0")] = false ∧
    cache_dependencies cfgUnsup stEmpty "http://localhost:8000" exNat exDock
      formUnsup =
      .error { status_code := 400
               detail := "Unsupported npm version and Docker is not available" } :=
  ⟨by decide, rfl⟩

/-- C3 (amended): when the version policy rejects a request and no
isolation fallback is enabled and available, the request fails with the
UnsupportedVersion `ValueError`, and `/v1/cache` surfaces it to the HTTP
client as status 400 — a client error, not a server error — because the
endpoint maps `ValueError` to 400. -/
theorem unsupported_version_maps_to_400
    (cfg : HandlerConfig) (st : CacheState) (base_url : String)
    (ni di : List (String × List Nat) → InstallationResult)
    (form : ApiForm) (versions_dict : List (String × String))
    (hv : form.versions_json = some versions_dict)
    (hca : form.custom_args = none ∨ ∃ l, form.custom_args = some (.ok l))
    (hm : (["npm", "composer", "yarn"].contains form.manager) = true)
    (hf : form.files.isEmpty = false)
    (hmani : pyTruthyBytes (classify_files (api_manifest_name form.manager)
      (api_lockfile_name form.manager) form.files).1 = true)
    (hmiss : ((get_index st (_calculate_bundle_hash (built_request form))).isSome &&
      has_bundle st (_calculate_bundle_hash (built_request form))) = false)
    (hunsup : _is_version_supported cfg.supported_versions form.manager
      versions_dict = false)
    (hnodock : ¬(cfg.use_docker_on_version_mismatch = true ∧
      cfg.docker_available = some true)) :
    cache_dependencies cfg st base_url ni di form =
      .error { status_code := 400
               detail := "Unsupported " ++ form.manager ++
                 " version and Docker is not available" } := by
  have hb_versions : (built_request form).versions = versions_dict := by
    simp [built_request, hv]
  have hdet : _determine_installation_method cfg (built_request form).manager
      (built_request form).versions =
      .error ("Unsupported " ++ form.manager ++
        " version and Docker is not available") := by
    rw [hb_versions]
    exact determine_error cfg form.manager versions_dict hunsup hnodock
  have hh := handle_miss_error_eq cfg st ni di (built_request form) _ hmiss hdet
  have hh1 : (handle cfg st ni di (built_request form)).1 =
      .error (.valueError ("Unsupported " ++ form.manager ++
        " version and Docker is not available")) := by
    rw [hh]
  rcases hca with hca | ⟨l, hca⟩
  · have hR : built_request form =
        { manager := form.manager
          versions := versions_dict
          lockfile_content := (classify_files (api_manifest_name form.manager)
            (api_lockfile_name form.manager) form.files).2.getD []
          manifest_content := (classify_files (api_manifest_name form.manager)
            (api_lockfile_name form.manager) form.files).1.getD []
          custom_args := none } := by
      simp [built_request, hv, hca]
    simp only [cache_dependencies, hv, hca, hm, hf, hmani]
    simp only [Bool.true_eq_false, if_false, List.isEmpty_eq_true]
    rw [← hR, hh1]
    simp
  · have hR : built_request form =
        { manager := form.manager
          versions := versions_dict
          lockfile_content := (classify_files (api_manifest_name form.manager)
            (api_lockfile_name form.manager) form.files).2.getD []
          manifest_content := (classify_files (api_manifest_name form.manager)
            (api_lockfile_name form.manager) form.files).1.getD []
          custom_args := some l } := by
      simp [built_request, hv, hca]
    simp only [cache_dependencies, hv, hca, hm, hf, hmani]
    simp only [Bool.true_eq_false, if_false, List.isEmpty_eq_true]
    rw [← hR, hh1]
    simp

/-- C3 witness: the amended statement applied to the concrete scenario-(c)
form and configuration. -/
theorem unsupported_version_maps_to_400_witness :
    cache_dependencies cfgUnsup stEmpty "http://localhost:8000" exNat exDock
      formUnsup =
      .error { status_code := 400
               detail := "Unsupported " ++ formUnsup.manager ++
                 " version and Docker is not available" } :=
  unsupported_version_maps_to_400 cfgUnsup stEmpty "http://localhost:8000"
    exNat exDock formUnsup [("node", "20.0.0"), ("npm", "10.0.0")]
    rfl (Or.inl rfl) rfl rfl rfl rfl (by decide) (by simp [cfgUnsup])

end DepCacheProxy
